import Mathlib

/-! # Verification of the wolff-lang lexer and parser

Shallow embedding of src/src/lex.cpp, src/src/parser.cpp and the relevant
part of src/src/main.cpp.  The input stream is modelled as a list of byte
values (what getchar yields before end of file); the global current-token
slot is threaded explicitly as part of a parser state.
-/

/-- Token-class tag for end of input.  Modelled from the spec: the header
lex.hpp defining the tokenType struct and the EoF and DIGIT tags is not in
the repository snapshot; the spec (section 3) says these classes are tags
distinct from every single-character class, so they are given values above
the byte range 0..255. -/
def EoF : Nat := 256

/-- Token-class tag for a decimal digit.  Modelled from the spec, like EoF:
a tag distinct from every character value; section 9 of the spec notes that
the digit-branch assignment in parser.cpp makes every token appear to match
Digit, hence the tag is in particular nonzero. -/
def DIGIT : Nat := 257

/-- The tokenType struct of lex.hpp: a class tag plus the raw character. -/
structure Token where
  classType : Nat
  repr : Nat
deriving Repr, DecidableEq

/-- isWhitespace from src/src/lex.cpp: newline, space and tab. -/
def isWhitespace (ch : Nat) : Bool :=
  ch = 10 || ch = 32 || ch = 9

/-- getNextToken from src/src/lex.cpp, as a function from the remaining
input to the token written into the global slot plus the rest of the input.
Reading past the end of the stream yields the EoF token with repr '#' (35);
otherwise whitespace is skipped and the first significant character is
classified: digits '0'..'9' (48..57) get class DIGIT, anything else gets
its own character value as class. -/
def getNextToken : List Nat → Token × List Nat
  | [] => (⟨EoF, 35⟩, [])
  | ch :: rest =>
    if isWhitespace ch then getNextToken rest
    else if 48 ≤ ch ∧ ch ≤ 57 then (⟨DIGIT, ch⟩, rest)
    else (⟨ch, ch⟩, rest)

/-- Parser state: the current-token slot (the global written by
getNextToken) together with the not-yet-read part of the input stream. -/
structure PState where
  tok : Token
  input : List Nat
deriving Repr, DecidableEq

/-- One call of getNextToken on a parser state: overwrites the token slot
with the next token and advances the stream position. -/
def advance (s : PState) : PState :=
  ⟨(getNextToken s.input).1, (getNextToken s.input).2⟩

/-- The AST of src/src/parser.hpp: an Expression is either a digit leaf
(type tag 'D', carrying repr - '0' as an int, possibly negative) or a
parenthesized node (type tag 'P') with two children and an operator.
Operator is a typedef for int holding the matched character. -/
inductive Expression where
  | digit (value : Int)
  | paren (left : Expression) (op : Nat) (right : Expression)
deriving Repr, DecidableEq

/-- Result of a parsing function: ok carries the built node and the state
after it (the C functions return 1), noMatch is the soft-failure return 0
with the state at that point, and fatal models the non-recoverable Error()
call of error.hpp (modelled from the spec, section 6: a raised fault
carrying a message, terminating the parse). -/
inductive PResult where
  | ok (e : Expression) (s : PState)
  | noMatch (s : PState)
  | fatal (msg : String)
deriving Repr, DecidableEq

/-- parseOperator from src/src/parser.cpp: on '+' (43) or '*' (42) it
stores the character and advances; otherwise it returns 0 having touched
nothing. -/
def parseOperator (s : PState) : Option Nat × PState :=
  if s.tok.classType = 43 then (some 43, advance s)
  else if s.tok.classType = 42 then (some 42, advance s)
  else (none, s)

/-- parseExpression from src/src/parser.cpp, embedded as written.  The
digit branch's condition is the C assignment token.classType = DIGIT: it
stores DIGIT into the class slot of the current token and then tests the
stored value for nonzeroness, so the branch is taken whenever DIGIT is
nonzero, regardless of the token's real class.  The state with the mutated
slot (s0) is what the rest of the function sees.  The first argument is
recursion fuel bounding the depth of nested calls. -/
def parseExpression : Nat → PState → PResult
  | 0, _ => .fatal "recursion fuel exhausted"
  | fuel + 1, s =>
    let s0 : PState := { s with tok := { s.tok with classType := DIGIT } }
    if DIGIT ≠ 0 then
      .ok (.digit ((s0.tok.repr : Int) - 48)) (advance s0)
    else if s0.tok.classType = 40 then
      match parseExpression fuel (advance s0) with
      | .ok l s1 =>
        match parseOperator s1 with
        | (some op, s2) =>
          match parseExpression fuel s2 with
          | .ok r s3 =>
            if s3.tok.classType = 41 then .ok (.paren l op r) (advance s3)
            else .fatal "Missing right paranthesis"
          | .noMatch _ => .fatal "Missing expression"
          | .fatal m => .fatal m
        | (none, _) => .fatal "Missing operator"
      | .noMatch _ => .fatal "Missing expression"
      | .fatal m => .fatal m
    else .noMatch s0

/-- The same parser with the digit-branch condition read as the comparison
token.classType == DIGIT.  Section 9 of the spec states this equality test
is the intended behavior and flags the source's assignment as a bug; this
definition follows the spec's words and is the yardstick the buggy
embedding is compared against. -/
def parseExpressionSpec : Nat → PState → PResult
  | 0, _ => .fatal "recursion fuel exhausted"
  | fuel + 1, s =>
    if s.tok.classType = DIGIT then
      .ok (.digit ((s.tok.repr : Int) - 48)) (advance s)
    else if s.tok.classType = 40 then
      match parseExpressionSpec fuel (advance s) with
      | .ok l s1 =>
        match parseOperator s1 with
        | (some op, s2) =>
          match parseExpressionSpec fuel s2 with
          | .ok r s3 =>
            if s3.tok.classType = 41 then .ok (.paren l op r) (advance s3)
            else .fatal "Missing right paranthesis"
          | .noMatch _ => .fatal "Missing expression"
          | .fatal m => .fatal m
        | (none, _) => .fatal "Missing operator"
      | .noMatch _ => .fatal "Missing expression"
      | .fatal m => .fatal m
    else .noMatch s

/-- Modelled from the spec: parseProgram is declared in parser.hpp and is
the entry point called by main.cpp, but its definition is not in the
repository snapshot.  Per the spec (sections 2, 4.2 and 6) the parser
obtains one token of lookahead by calling the lexer proactively and then
recognizes one Expression; the fuel input.length + 1 dominates the
recursion depth, since every nested call follows the consumption of at
least one character. -/
def parseProgram (input : List Nat) : PResult :=
  parseExpression (input.length + 1) ⟨(getNextToken input).1, (getNextToken input).2⟩

/-- The spec-intended entry point, built on parseExpressionSpec the same
way parseProgram is built on parseExpression. -/
def parseProgramSpec (input : List Nat) : PResult :=
  parseExpressionSpec (input.length + 1) ⟨(getNextToken input).1, (getNextToken input).2⟩

/-- A stream of values that getchar can actually produce: bytes 0..255. -/
abbrev ValidStream (l : List Nat) : Prop := ∀ c ∈ l, c < 256

/-- The sequence of successive lexer states reached from a state by
repeatedly calling getNextToken: each entry records the token written into
the slot and the stream position after the call. -/
def lexTrace : Nat → PState → List PState
  | 0, _ => []
  | n + 1, s => advance s :: lexTrace n (advance s)

/-- Helper: the digit-branch invariant on an AST, namely that every digit
leaf carries a value between 0 and 9. -/
def digitsInRange : Expression → Prop
  | .digit v => 0 ≤ v ∧ v ≤ 9
  | .paren l _ r => digitsInRange l ∧ digitsInRange r

/-- Helper: a parser state whose token slot is trustworthy (a DIGIT class
can only come with a digit character in repr) and whose remaining input is
a byte stream. -/
def GoodState (s : PState) : Prop :=
  (s.tok.classType = DIGIT → 48 ≤ s.tok.repr ∧ s.tok.repr ≤ 57) ∧ ValidStream s.input

/-- Helper: on a byte stream, getNextToken only hands out class DIGIT with
a digit character as repr, and leaves a byte stream behind. -/
theorem getNextToken_good (l : List Nat) (hv : ValidStream l) :
    ((getNextToken l).1.classType = DIGIT →
      48 ≤ (getNextToken l).1.repr ∧ (getNextToken l).1.repr ≤ 57)
    ∧ ValidStream (getNextToken l).2 := by
  induction l with
  | nil =>
    exact ⟨fun h => by simp [getNextToken, EoF, DIGIT] at h,
      fun c hc => by simp [getNextToken] at hc⟩
  | cons c r ih =>
    have hc : c < 256 := hv c (List.mem_cons_self c r)
    have hr : ValidStream r := fun x hx => hv x (List.mem_cons_of_mem c hx)
    by_cases hw : isWhitespace c
    · simpa [getNextToken, hw] using ih hr
    · by_cases hd : 48 ≤ c ∧ c ≤ 57
      · simp [getNextToken, hw, hd]
        exact hr
      · simp [getNextToken, hw, hd]
        refine ⟨fun h => ?_, hr⟩
        rw [DIGIT] at h
        omega

/-- Helper: advancing from a state with a byte stream yields a good state. -/
theorem advance_good (s : PState) (hv : ValidStream s.input) : GoodState (advance s) :=
  ⟨(getNextToken_good s.input hv).1, (getNextToken_good s.input hv).2⟩

/-- Helper: parseOperator leaves a good state good, whether it consumed a
token or returned without a match. -/
theorem parseOperator_good (s : PState) (hs : GoodState s) :
    GoodState (parseOperator s).2 := by
  unfold parseOperator
  split
  · exact advance_good s hs.2
  · split
    · exact advance_good s hs.2
    · exact hs

/-- Helper: the spec-intended parser only builds digit leaves with values
in 0..9, and hands back a good state, whenever it starts from a good state
(in particular from any state the lexer can produce on a byte stream). -/
theorem parseExpressionSpec_good (fuel : Nat) :
    ∀ s e s2, GoodState s → parseExpressionSpec fuel s = .ok e s2 →
      digitsInRange e ∧ GoodState s2 := by
  induction fuel with
  | zero =>
    intro s e s2 _ h
    exact PResult.noConfusion h
  | succ fuel ih =>
    intro s e s2 hs h
    unfold parseExpressionSpec at h
    split at h
    · cases h
      refine ⟨?_, advance_good s hs.2⟩
      have hb := hs.1 (by assumption)
      simp only [digitsInRange]
      omega
    · split at h
      · split at h
        · rename_i l s1 hL
          have h1 : digitsInRange l ∧ GoodState s1 := ih _ _ _ (advance_good s hs.2) hL
          split at h
          · rename_i op s2a hOp
            have h2 : GoodState s2a := by
              have := parseOperator_good s1 h1.2
              rw [hOp] at this
              exact this
            split at h
            · rename_i r s3 hR
              have h3 : digitsInRange r ∧ GoodState s3 := ih _ _ _ h2 hR
              split at h
              · cases h
                exact ⟨⟨h1.1, h3.1⟩, advance_good s3 h3.2.2⟩
              · exact PResult.noConfusion h
            · exact PResult.noConfusion h
            · exact PResult.noConfusion h
          · exact PResult.noConfusion h
        · exact PResult.noConfusion h
        · exact PResult.noConfusion h
      · exact PResult.noConfusion h

/-- C1: refuted on the source, confirmed for the spec's intended reading.
Started at the first token of "(2+3)" (class 40, the character '(' — not
Digit), parseExpression nevertheless takes the digit branch: it returns a
Digit node built from '(' itself, value 40 - 48 = -8, having consumed one
token, and never reaches the parenthesis branch.  The digit branch is
therefore not guarded by class = Digit in the code (the C condition is the
assignment token.classType = DIGIT).  parseExpressionSpec, the intended
equality-check reading, does skip the digit branch on the same state and
parses the parenthesized expression. -/
theorem parseExpression_digit_branch_on_lparen :
    (40 : Nat) ≠ DIGIT
  ∧ parseExpression 5 ⟨⟨40, 40⟩, [50, 43, 51, 41]⟩
      = .ok (.digit (-8)) ⟨⟨DIGIT, 50⟩, [43, 51, 41]⟩
  ∧ parseExpressionSpec 5 ⟨⟨40, 40⟩, [50, 43, 51, 41]⟩
      = .ok (.paren (.digit 2) 43 (.digit 3)) ⟨⟨EoF, 35⟩, []⟩ := by
  decide

/-- C2: confirmed.  Whatever the current token slot holds — a digit, an
operator, '(', ')', EndOfInput, anything — parseExpression with any
positive fuel returns success (the C return value 1) carrying a Digit node
built from the slot's repr, and advances the lexer once; the no-match
return 0 and the fatal Error calls of the parenthesis branch are
unreachable, because the digit-branch condition is the always-truthy
assignment token.classType = DIGIT. -/
theorem parseExpression_always_ok (fuel : Nat) (s : PState) :
    parseExpression (fuel + 1) s
      = .ok (.digit ((s.tok.repr : Int) - 48)) (advance s) := by
  simp [parseExpression, DIGIT, advance]

/-- C3: refuted on the source, confirmed for the spec's intended reading.
On the well-formed input "(2+3)" (bytes 40 50 43 51 41) the code does not
mirror the parenthesis structure: it returns the single leaf Digit(-8)
built from the opening parenthesis.  The spec-intended parser returns
exactly Parenthesized(left = Digit 2, op = '+', right = Digit 3) with the
whole input consumed. -/
theorem parseProgram_paren23 :
    parseProgram [40, 50, 43, 51, 41]
      = .ok (.digit (-8)) ⟨⟨DIGIT, 50⟩, [43, 51, 41]⟩
  ∧ parseProgramSpec [40, 50, 43, 51, 41]
      = .ok (.paren (.digit 2) 43 (.digit 3)) ⟨⟨EoF, 35⟩, []⟩
  ∧ parseProgramSpec [40, 40, 49, 43, 50, 41, 42, 51, 41]
      = .ok (.paren (.paren (.digit 1) 43 (.digit 2)) 42 (.digit 3)) ⟨⟨EoF, 35⟩, []⟩ := by
  decide

/-- C4: refuted on the source, confirmed for the spec's intended reading.
On empty input the current token is EndOfInput (class 256, repr '#'), yet
the code returns success with the garbage leaf Digit('#' - '0') = Digit(-13)
instead of the no-match result, so main's "No top-level expression" throw
is unreachable; likewise a '+' token (neither Digit nor '(') yields a
Digit(-5) success.  The spec-intended parser returns noMatch in both
situations without any fatal error. -/
theorem parseProgram_empty_and_nonexpr :
    parseProgram [] = .ok (.digit (-13)) ⟨⟨EoF, 35⟩, []⟩
  ∧ parseProgramSpec [] = .noMatch ⟨⟨EoF, 35⟩, []⟩
  ∧ parseProgram [43] = .ok (.digit (-5)) ⟨⟨EoF, 35⟩, []⟩
  ∧ parseProgramSpec [43] = .noMatch ⟨⟨43, 43⟩, []⟩ := by
  decide

/-- C5: refuted on the source.  On "(1+2" (missing close paren) the code
raises no fatal error at all: the always-taken digit branch returns the
success Digit(-8), so the committed-parenthesis error path is dead.  Under
the spec-intended reading the three error paths are live — "(1+)" raises
"Missing expression", "(14)" raises "Missing operator", and "(1+2" raises
the closing-paren error — but the code spells that message "Missing right
paranthesis", not "Missing right parenthesis" as the claim states. -/
theorem parseProgram_committed_paren_errors :
    parseProgram [40, 49, 43, 50] = .ok (.digit (-8)) ⟨⟨DIGIT, 49⟩, [43, 50]⟩
  ∧ parseProgramSpec [40, 49, 43, 41] = .fatal "Missing expression"
  ∧ parseProgramSpec [40, 49, 52, 41] = .fatal "Missing operator"
  ∧ parseProgramSpec [40, 49, 43, 50] = .fatal "Missing right paranthesis"
  ∧ "Missing right paranthesis" ≠ "Missing right parenthesis" := by
  decide

/-- C6: confirmed.  One call of getNextToken first discards exactly the
leading whitespace (space, tab, newline); if nothing significant remains
it produces class EndOfInput with repr '#' (35) and leaves the exhausted
stream; otherwise it consumes the first significant character c and
produces class DIGIT when c is a digit 48..57, and class c itself for
every other character, with repr c in both cases. -/
theorem getNextToken_classification (l : List Nat) :
    getNextToken l =
      match l.dropWhile (fun c => isWhitespace c) with
      | [] => (⟨EoF, 35⟩, [])
      | c :: r => (⟨if 48 ≤ c ∧ c ≤ 57 then DIGIT else c, c⟩, r) := by
  induction l with
  | nil => rfl
  | cons c r ih =>
    by_cases hw : isWhitespace c
    · simpa [getNextToken, List.dropWhile, hw] using ih
    · by_cases hd : 48 ≤ c ∧ c ≤ 57 <;> simp [getNextToken, List.dropWhile, hw, hd]

/-- C7: confirmed.  parseOperator succeeds exactly on the classes '+' (43)
and '*' (42); on success it returns the matched character and the state
advanced by one token, and in every other case it returns no match with
the state — current token and stream position — exactly as it was. -/
theorem parseOperator_characterization (s : PState) :
    ((parseOperator s).1 ≠ none ↔ s.tok.classType = 43 ∨ s.tok.classType = 42)
  ∧ (s.tok.classType = 43 → parseOperator s = (some 43, advance s))
  ∧ (s.tok.classType = 42 → parseOperator s = (some 42, advance s))
  ∧ (s.tok.classType ≠ 43 → s.tok.classType ≠ 42 → parseOperator s = (none, s)) := by
  unfold parseOperator
  by_cases h1 : s.tok.classType = 43
  · simp [h1]
  · by_cases h2 : s.tok.classType = 42 <;> simp [h1, h2]

/-- Witness for C7 at a concrete state: a '+' token over an empty rest of
stream is consumed and returned. -/
theorem parseOperator_characterization_plus :
    parseOperator ⟨⟨43, 43⟩, []⟩ = (some 43, advance ⟨⟨43, 43⟩, []⟩) :=
  (parseOperator_characterization ⟨⟨43, 43⟩, []⟩).2.1 rfl

/-- C8: refuted on the source, confirmed for the spec's intended reading.
The code's always-taken digit branch turns any current token into a Digit
leaf valued repr - '0', so a successful parse can hold values far outside
0..9: on input "+" it succeeds with Digit(-5).  Under the intended
equality-check reading the invariant does hold (parseExpressionSpec_good
above proves every digit leaf of a successful parse over a byte stream
lies in 0..9). -/
theorem parseProgram_digit_out_of_range :
    parseProgram [43] = .ok (.digit (-5)) ⟨⟨EoF, 35⟩, []⟩
  ∧ ¬ ((0 : Int) ≤ -5 ∧ (-5 : Int) ≤ 9) := by
  decide

/-- C9: confirmed.  The lexer has no hidden state beyond the stream
position: the whole trace of tokens and positions obtained by repeatedly
calling getNextToken on a given remaining input is the same whatever the
current-token slot held beforehand, so re-lexing the same immutable input
from the same position always yields the same token sequence. -/
theorem lexTrace_deterministic (n : Nat) (input : List Nat) (t1 t2 : Token) :
    lexTrace n ⟨t1, input⟩ = lexTrace n ⟨t2, input⟩ := by
  cases n with
  | zero => rfl
  | succ n => rfl

/-- Helper: from an exhausted stream every lexer step reproduces the
EndOfInput token and stays at the exhausted stream. -/
theorem lexTrace_exhausted (n : Nat) : ∀ t : Token,
    lexTrace n ⟨t, []⟩ = List.replicate n ⟨⟨EoF, 35⟩, []⟩ := by
  induction n with
  | zero => intro t; rfl
  | succ n ih =>
    intro t
    simp [lexTrace, advance, getNextToken, List.replicate]
    exact ih _

/-- C10: confirmed.  On a byte stream, whenever getNextToken yields a token
of class EndOfInput, the stream is exhausted (and the token's repr is '#');
from then on every further call yields the EndOfInput token with repr '#'
again and the position never moves. -/
theorem getNextToken_eof_absorbing (l : List Nat) (hv : ValidStream l)
    (he : (getNextToken l).1.classType = EoF) :
    (getNextToken l).1.repr = 35
  ∧ (getNextToken l).2 = []
  ∧ ∀ n, lexTrace n ⟨(getNextToken l).1, (getNextToken l).2⟩
        = List.replicate n ⟨⟨EoF, 35⟩, []⟩ := by
  have key : getNextToken l = (⟨EoF, 35⟩, []) := by
    induction l with
    | nil => rfl
    | cons c r ih =>
      have hc : c < 256 := hv c (List.mem_cons_self c r)
      have hr : ValidStream r := fun x hx => hv x (List.mem_cons_of_mem c hx)
      by_cases hw : isWhitespace c
      · rw [show getNextToken (c :: r) = getNextToken r from by simp [getNextToken, hw]] at he ⊢
        exact ih hr he
      · by_cases hd : 48 ≤ c ∧ c ≤ 57
        · simp [getNextToken, hw, hd, DIGIT, EoF] at he
        · simp [getNextToken, hw, hd, EoF] at he
          omega
  rw [key]
  exact ⟨rfl, rfl, fun n => lexTrace_exhausted n _⟩

/-- Witness for C10 at a concrete stream: a single tab is all whitespace,
so the first call already reports EndOfInput, and the absorbing behavior
follows. -/
theorem getNextToken_eof_absorbing_tab :
    (getNextToken [9]).1.repr = 35
  ∧ (getNextToken [9]).2 = []
  ∧ ∀ n, lexTrace n ⟨(getNextToken [9]).1, (getNextToken [9]).2⟩
        = List.replicate n ⟨⟨EoF, 35⟩, []⟩ :=
  getNextToken_eof_absorbing [9] (by decide) (by decide)
